import Mathlib

/-
Verification of the azure-ai-agent-service demo scripts.

This file gives a shallow embedding of the local (non-SDK) logic of the
repository's Python scripts and proves properties of that logic:

  * the `trace_function_name` decorator and its `args` normalization
    (src/2_function_sequencing.py lines 26-79, identically in
    src/2_function_sequencing_with_decorators.py lines 25-78);
  * the weather/air-quality tool functions and their wrappers
    (src/2_function_sequencing.py lines 84-146 and 179-196);
  * the external-API weather function (src/1_external_api_call.py lines 19-53);
  * each script's start-up configuration check up to client construction;
  * the chat-message SQL layer of src/3_long_term_mem.py;
  * the short-term-memory history buffer of src/3_short_term_mem.py.

External HTTP calls are modelled by oracle parameters whose result type
includes an exception constructor for a raising `requests.get`; Python floats
are modelled by rationals, and the Python `float(...)` string parser by an
abstract parameter `pf : String → Option ℚ`.
-/

set_option autoImplicit false

-- ===========================================================================
-- JSON values, as produced by json.dumps on the flat dicts of these scripts
-- ===========================================================================

/-- A JSON atom appearing in the scripts' result objects: a string, a number
(Python float/int modelled as a rational), or `null` (Python `None`). -/
inductive JVal where
  | str (s : String)
  | num (q : ℚ)
  | null
deriving DecidableEq, Repr

/-- A flat JSON object, the shape of every value the tool functions
`json.dumps`: a list of key/value fields. -/
abbrev JObj := List (String × JVal)

/-- Whether a JSON object carries an "error" key. -/
def hasError (o : JObj) : Bool :=
  o.any (fun kv => kv.1 == "error")

/-- Drop leading whitespace from a character list. -/
def dropLeadingWs : List Char → List Char
  | [] => []
  | c :: cs => if c.isWhitespace then dropLeadingWs cs else c :: cs

/-- Python `str.strip()`: remove leading and trailing whitespace. -/
def pyStrip (s : String) : String :=
  String.mk ((dropLeadingWs (dropLeadingWs s.data.reverse).reverse))

/-- Python `str.split(',')` on a character list: split at every comma,
keeping empty parts. -/
def splitCommaChars : List Char → List (List Char)
  | [] => [[]]
  | c :: cs =>
    if c = ',' then [] :: splitCommaChars cs
    else
      match splitCommaChars cs with
      | [] => [[c]]
      | p :: ps => (c :: p) :: ps

/-- Python `s.split(',')`. -/
def pySplitOnComma (s : String) : List String :=
  (splitCommaChars s.data).map String.mk

-- ===========================================================================
-- The trace_function_name decorator
-- (src/2_function_sequencing.py lines 26-79)
-- ===========================================================================

namespace Trace

/-- A Python value passed through the decorator's kwargs: a string, a number,
or any non-string value (for the `isinstance(kwargs['args'], str)` test). -/
inductive PyVal where
  | vstr (s : String)
  | vnum (q : ℚ)
  | vnone
deriving DecidableEq, Repr

/-- Keyword arguments of a Python call, as an association list. -/
abbrev Kwargs := List (String × PyVal)

/-- The function names given special `args` handling by the decorator
(src/2_function_sequencing.py line 36). -/
def tracedFunctionNames : List String :=
  ["fetch_weather", "fetch_air_quality", "get_city_coords"]

/-- Outcome of the decorator's `args` string normalization: either parsed
coordinates or the whole string treated as a city name. -/
inductive DispatchResult where
  | coords (lat lon : ℚ)
  | cityName (s : String)
deriving DecidableEq, Repr

/-- Embedding of the decorator's `args`-string analysis
(src/2_function_sequencing.py lines 37-59): if the string contains a comma
and a digit, split on ','; with exactly two parts, strip each and parse as a
float (`pf` models Python `float`, `none` modelling a raised ValueError);
on success dispatch coordinates, in every other case dispatch the whole
string as a city name. -/
def dispatchArgs (pf : String → Option ℚ) (s : String) : DispatchResult :=
  if s.data.contains ',' && s.data.any Char.isDigit then
    if (pySplitOnComma s).length = 2 then
      match pf (pyStrip ((pySplitOnComma s).getD 0 "")),
            pf (pyStrip ((pySplitOnComma s).getD 1 "")) with
      | some la, some lo => DispatchResult.coords la lo
      | _, _ => DispatchResult.cityName s
    else DispatchResult.cityName s
  else DispatchResult.cityName s

/-- Embedding of the wrapper returned by `trace_function_name`
(src/2_function_sequencing.py lines 27-78).  `funcName` is
`func.__name__`, `params` the parameter names of `func`
(`inspect.signature(func).parameters`), `func` the wrapped function applied
to positional arguments and keyword arguments, and `pf` the Python float
parser.  When kwargs bind 'args' to a string and the function is one of the
traced names, the call is rebuilt from `dispatchArgs`; otherwise kwargs are
filtered to the valid parameter names and forwarded together with the
positional arguments. -/
def trace_function_name {R : Type} (funcName : String) (params : List String)
    (func : List PyVal → Kwargs → R) (pf : String → Option ℚ)
    (pos : List PyVal) (kwargs : Kwargs) : R :=
  match kwargs.lookup "args" with
  | some (PyVal.vstr argsValue) =>
    if funcName ∈ tracedFunctionNames then
      match dispatchArgs pf argsValue with
      | DispatchResult.coords la lo =>
          func [] [("lat", PyVal.vnum la), ("lon", PyVal.vnum lo)]
      | DispatchResult.cityName c => func [] [("city", PyVal.vstr c)]
    else func pos (kwargs.filter (fun kv => decide (kv.1 ∈ params)))
  | _ => func pos (kwargs.filter (fun kv => decide (kv.1 ∈ params)))

/-- A concrete stand-in for the Python float parser, used to evaluate the
decorator on concrete inputs. -/
def pfDemo : String → Option ℚ :=
  fun t => if t = "1" then some 1 else none

/-- A concrete wrapped function that returns the kwargs it was invoked with,
used to observe the decorator's forwarding on concrete inputs. -/
def kwargsId : List PyVal → Kwargs → Kwargs :=
  fun _ kw => kw

end Trace

-- ===========================================================================
-- The function-sequencing tool functions
-- (src/2_function_sequencing.py lines 84-146 and 179-196)
-- ===========================================================================

namespace FuncSeq

/-- The CITY_COORDS table (src/2_function_sequencing.py lines 84-88). -/
def CITY_COORDS : List (String × ℚ × ℚ) :=
  [("London", ((51.5074 : ℚ), (-0.1278 : ℚ))),
   ("New York", ((40.7128 : ℚ), (-74.0060 : ℚ))),
   ("Tokyo", ((35.6895 : ℚ), (139.6917 : ℚ)))]

/-- Python truthiness of an optional float argument: `None`, and the float
`0.0`, are falsy. -/
def truthyOptRat : Option ℚ → Bool
  | none => false
  | some q => q != 0

/-- Python truthiness of an optional string argument: `None`, and the empty
string, are falsy. -/
def truthyOptStr : Option String → Bool
  | none => false
  | some s => s != ""

/-- Fields read from the open-meteo response body:
`data.get("hourly", \x7b\x7d).get("temperature_2m", [])` and
`data.get("hourly_units", \x7b\x7d).get("temperature_2m", "unknown")`. -/
structure MeteoData where
  hourlyTemps : Option (List ℚ)
  tempUnits : Option String

/-- Result of the `requests.get` call in fetch_weather: either a parsed body,
or a raised `requests.RequestException` (including the `raise_for_status`
HTTPError) with its message. -/
inductive MeteoResult where
  | ok (d : MeteoData)
  | exn (msg : String)

/-- Embedding of the shared argument normalization at the head of
`fetch_weather` and `fetch_air_quality`
(src/2_function_sequencing.py lines 100-105 and 127-132): if `city` is
truthy and not both coordinates are truthy, look the city up in
CITY_COORDS, returning the "City ... not supported" error object for an
unknown city and the table's coordinates otherwise; else keep the supplied
coordinates. -/
def resolveCoords (city : Option String) (lat0 lon0 : Option ℚ) :
    Except JObj (Option ℚ × Option ℚ) :=
  if truthyOptStr city && !(truthyOptRat lat0 && truthyOptRat lon0) then
    match CITY_COORDS.lookup (city.getD "") with
    | none =>
        Except.error
          [("error", JVal.str ("City " ++ city.getD "" ++ " not supported"))]
    | some (la, lo) => Except.ok (some la, some lo)
  else Except.ok (lat0, lon0)

/-- Embedding of the keyword-argument `fetch_weather`
(src/2_function_sequencing.py lines 98-123).  The second component records
the coordinates of the HTTP request it builds, `none` when no request is
issued.  The oracle `http` models `requests.get` on the forecast URL. -/
def fetch_weather (city : Option String) (lat0 lon0 : Option ℚ)
    (http : ℚ → ℚ → MeteoResult) : JObj × Option (ℚ × ℚ) :=
  match resolveCoords city lat0 lon0 with
  | Except.error e => (e, none)
  | Except.ok (lat, lon) =>
    if !(truthyOptRat lat && truthyOptRat lon) then
      ([("error", JVal.str "Missing coordinates")], none)
    else
      let la := lat.getD 0
      let lo := lon.getD 0
      match http la lo with
      | MeteoResult.exn m => ([("error", JVal.str m)], some (la, lo))
      | MeteoResult.ok d =>
        let temps := d.hourlyTemps.getD []
        let tempJ : JVal :=
          match temps.head? with
          | some t => JVal.num t
          | none => JVal.null
        ([("temperature", tempJ),
          ("units", JVal.str (d.tempUnits.getD "unknown"))],
         some (la, lo))

/-- Embedding of the keyword-argument `fetch_air_quality`
(src/2_function_sequencing.py lines 126-146): the same argument
normalization, then a fixed placeholder object with index 42 and the
resolved coordinates; no HTTP request is ever issued. -/
def fetch_air_quality (city : Option String) (lat0 lon0 : Option ℚ) : JObj :=
  match resolveCoords city lat0 lon0 with
  | Except.error e => e
  | Except.ok (lat, lon) =>
    if !(truthyOptRat lat && truthyOptRat lon) then
      [("error", JVal.str "Missing coordinates")]
    else
      [("air_quality_index", JVal.num 42),
       ("lat", JVal.num (lat.getD 0)),
       ("lon", JVal.num (lon.getD 0))]

/-- Embedding of `fetch_weather_wrapper`
(src/2_function_sequencing.py lines 182-188), parameterized by the
underlying function `f` (in the source, the decorated `fetch_weather`): a
non-None city is forwarded alone; otherwise coordinates are forwarded only
when both are non-None, else the error object is returned with no call. -/
def fetch_weather_wrapper (f : Option String → Option ℚ → Option ℚ → JObj)
    (city : Option String) (lat lon : Option ℚ) : JObj :=
  match city with
  | some c => f (some c) none none
  | none =>
    match lat, lon with
    | some la, some lo => f none (some la) (some lo)
    | _, _ => [("error", JVal.str "Missing required parameters")]

/-- Embedding of `fetch_air_quality_wrapper`
(src/2_function_sequencing.py lines 190-196), parameterized by the
underlying function `f` (in the source, the decorated `fetch_air_quality`). -/
def fetch_air_quality_wrapper (f : Option String → Option ℚ → Option ℚ → JObj)
    (city : Option String) (lat lon : Option ℚ) : JObj :=
  match city with
  | some c => f (some c) none none
  | none =>
    match lat, lon with
    | some la, some lo => f none (some la) (some lo)
    | _, _ => [("error", JVal.str "Missing required parameters")]

/-- A `requests.get` oracle whose request raises a connection error, used to
evaluate the tool functions on a concrete failing run. -/
def httpExnDemo : ℚ → ℚ → MeteoResult :=
  fun _ _ => MeteoResult.exn "connection error"

/-- A concrete underlying tool function returning the empty object, used to
observe the wrappers' forwarding on concrete inputs. -/
def constEmptyTool : Option String → Option ℚ → Option ℚ → JObj :=
  fun _ _ _ => []

end FuncSeq

-- ===========================================================================
-- The basic (no-trace) function-sequencing tool functions
-- (src/2_function_sequencing_basic_function_no_trace.py lines 30-67)
-- ===========================================================================

namespace FuncSeqBasic

/-- Embedding of the basic variant's city-only `fetch_weather`
(src/2_function_sequencing_basic_function_no_trace.py lines 36-56): an
unknown city returns the "City not supported" error object; otherwise the
request is issued at the city's table coordinates, a raised
requests.RequestException is caught and encoded, and the temperature is
read as the first element of the hourly list with default `[None]`.  With
the key chain absent that default indexes to None, but a present and empty
list makes the `[0]` indexing raise an IndexError the except clause does
not catch (it catches only requests.RequestException), modelled as
`Except.error`. -/
def fetch_weather (city : String) (http : ℚ → ℚ → FuncSeq.MeteoResult) :
    Except String JObj :=
  match FuncSeq.CITY_COORDS.lookup city with
  | none => Except.ok [("error", JVal.str "City not supported")]
  | some (la, lo) =>
    match http la lo with
    | FuncSeq.MeteoResult.exn m => Except.ok [("error", JVal.str m)]
    | FuncSeq.MeteoResult.ok d =>
      match d.hourlyTemps with
      | none =>
        Except.ok
          [("city", JVal.str city), ("temperature", JVal.null),
           ("units", JVal.str (d.tempUnits.getD "unknown"))]
      | some [] => Except.error "IndexError: list index out of range"
      | some (t :: _) =>
        Except.ok
          [("city", JVal.str city), ("temperature", JVal.num t),
           ("units", JVal.str (d.tempUnits.getD "unknown"))]

/-- Embedding of the basic variant's coordinate-only `fetch_air_quality`
(src/2_function_sequencing_basic_function_no_trace.py lines 58-67): an
explicit `is None` check on each coordinate, then the placeholder object. -/
def fetch_air_quality (lat lon : Option ℚ) : JObj :=
  match lat, lon with
  | some la, some lo =>
      [("air_quality_index", JVal.num 42),
       ("lat", JVal.num la), ("lon", JVal.num lo)]
  | _, _ => [("error", JVal.str "Missing latitude or longitude")]

end FuncSeqBasic

-- ===========================================================================
-- The external-API weather function (src/1_external_api_call.py lines 19-53)
-- ===========================================================================

namespace ExternalApi

/-- Result of the un-guarded `requests.get(geocode_url)` call
(src/1_external_api_call.py line 21): either a raised RequestException with
its message, or a response with a status code and the parsed list of
geocoding results (each a lat/lon pair). -/
inductive GeoResult where
  | raise (msg : String)
  | resp (status : Nat) (results : List (ℚ × ℚ))

/-- Fields read from the One Call weather response's "current" object. -/
structure ExtCurrent where
  temp : Option ℚ
  feels_like : Option ℚ
  description : Option String
  wind_speed : Option ℚ
  humidity : Option ℚ
  uvi : Option ℚ

/-- Result of the un-guarded `requests.get(weather_url)` call
(src/1_external_api_call.py line 39). -/
inductive ExtWxResult where
  | raise (msg : String)
  | resp (status : Nat) (current : ExtCurrent)

/-- An optional number as a JSON value (`None` dumps as `null`). -/
def optNum : Option ℚ → JVal
  | none => JVal.null
  | some q => JVal.num q

/-- An optional string as a JSON value. -/
def optStr : Option String → JVal
  | none => JVal.null
  | some s => JVal.str s

/-- Embedding of `get_city_coordinates`
(src/1_external_api_call.py lines 19-25).  The `requests.get` call is not
inside a try/except, so a raising oracle propagates as `Except.error`. -/
def get_city_coordinates (city : String) (geo : String → GeoResult) :
    Except String (Option (ℚ × ℚ)) :=
  match geo city with
  | GeoResult.raise m => Except.error m
  | GeoResult.resp status results =>
    match results with
    | [] => Except.ok none
    | loc :: _ =>
      if status = 200 then Except.ok (some loc) else Except.ok none

/-- Embedding of the external-API `fetch_weather`
(src/1_external_api_call.py lines 28-53).  Neither `requests.get` call is
guarded by try/except, so a raised request exception escapes the function
(`Except.error`) instead of being encoded as a JSON object. -/
def fetch_weather (location : String) (geo : String → GeoResult)
    (wx : ℚ → ℚ → ExtWxResult) : Except String JObj :=
  match get_city_coordinates location geo with
  | Except.error m => Except.error m
  | Except.ok none => Except.ok [("error", JVal.str "City not found")]
  | Except.ok (some (la, lo)) =>
    match wx la lo with
    | ExtWxResult.raise m => Except.error m
    | ExtWxResult.resp status cur =>
      if status = 200 then
        Except.ok
          [("city", JVal.str location),
           ("temperature", optNum cur.temp),
           ("feels_like", optNum cur.feels_like),
           ("description", optStr cur.description),
           ("wind_speed", optNum cur.wind_speed),
           ("humidity", optNum cur.humidity),
           ("uvi", optNum cur.uvi)]
      else Except.ok [("error", JVal.str "Failed to retrieve weather data")]

end ExternalApi

-- ===========================================================================
-- Script start-up: configuration loading before client construction
-- ===========================================================================

namespace Scripts

/-- The process environment, as an association list. -/
abbrev Env := List (String × String)

/-- Embedding of `os.getenv` / `os.environ.get`. -/
def getenv (env : Env) (k : String) : Option String := env.lookup k

/-- Python truthiness of an environment value: absent, or present but
empty, is falsy (this is what `if not conn_str:` tests). -/
def truthyEnvVal : Option String → Bool
  | none => false
  | some s => s != ""

/-- What a script's start-up does before any remote call: terminate with an
error (raised ValueError or exit(1)), or construct the SDK client with the
given connection-string argument. -/
inductive StartOutcome where
  | errorExit
  | clientConstructed (connArg : Option String)
deriving DecidableEq, Repr

/-- The seven scripts of the repository. -/
inductive Script where
  | setup
  | externalApi
  | funcSeq
  | funcSeqBasic
  | funcSeqDecorators
  | shortTerm
  | longTerm
deriving DecidableEq, Repr

/-- Embedding of each script's start-up, from reading the environment up to
constructing the `AIProjectClient`:
  * 0_azure_ai_agent_service_setup.py lines 10-16: check then construct;
  * 1_external_api_call.py lines 11-16 and 64: check both variables, then
    construct;
  * 2_function_sequencing.py lines 19-21 and 167: check (raise ValueError)
    then construct; identically in the basic and decorators variants;
  * 3_short_term_mem.py lines 11-21: check then construct;
  * 3_long_term_mem.py lines 9-13: read the variable and construct the
    client directly, with no check at all. -/
def startOf : Script → Env → StartOutcome
  | Script.setup, env =>
    if truthyEnvVal (getenv env "PROJECT_CONNECTION_STRING") then
      StartOutcome.clientConstructed (getenv env "PROJECT_CONNECTION_STRING")
    else StartOutcome.errorExit
  | Script.externalApi, env =>
    if !truthyEnvVal (getenv env "PROJECT_CONNECTION_STRING") then
      StartOutcome.errorExit
    else if !truthyEnvVal (getenv env "OPEN_WEATHER_API_KEY") then
      StartOutcome.errorExit
    else StartOutcome.clientConstructed (getenv env "PROJECT_CONNECTION_STRING")
  | Script.funcSeq, env =>
    if truthyEnvVal (getenv env "PROJECT_CONNECTION_STRING") then
      StartOutcome.clientConstructed (getenv env "PROJECT_CONNECTION_STRING")
    else StartOutcome.errorExit
  | Script.funcSeqBasic, env =>
    if truthyEnvVal (getenv env "PROJECT_CONNECTION_STRING") then
      StartOutcome.clientConstructed (getenv env "PROJECT_CONNECTION_STRING")
    else StartOutcome.errorExit
  | Script.funcSeqDecorators, env =>
    if truthyEnvVal (getenv env "PROJECT_CONNECTION_STRING") then
      StartOutcome.clientConstructed (getenv env "PROJECT_CONNECTION_STRING")
    else StartOutcome.errorExit
  | Script.shortTerm, env =>
    if truthyEnvVal (getenv env "PROJECT_CONNECTION_STRING") then
      StartOutcome.clientConstructed (getenv env "PROJECT_CONNECTION_STRING")
    else StartOutcome.errorExit
  | Script.longTerm, env =>
    StartOutcome.clientConstructed (getenv env "PROJECT_CONNECTION_STRING")

end Scripts

-- ===========================================================================
-- Long-term memory: the ChatMessages SQL layer (src/3_long_term_mem.py)
-- ===========================================================================

namespace LongTerm

/-- A row of the ChatMessages table (src/3_long_term_mem.py lines 20-29);
`created_at` is the commit sequence number standing for the row's
CURRENT_TIMESTAMP default. -/
structure ChatRow where
  user_id : String
  thread_id : String
  role : String
  message : String
  created_at : Nat
deriving DecidableEq, Repr

/-- Embedding of `store_message` (src/3_long_term_mem.py lines 44-47): a
single INSERT appending one new row, timestamped after every existing row. -/
def store_message (db : List ChatRow) (u t r m : String) : List ChatRow :=
  db ++ [⟨u, t, r, m, db.length⟩]

/-- Insert a row into a list sorted by `created_at` (ties keep the new row
first, as any total order extension would). -/
def insertByCreated (row : ChatRow) : List ChatRow → List ChatRow
  | [] => [row]
  | x :: xs =>
    if row.created_at ≤ x.created_at then row :: x :: xs
    else x :: insertByCreated row xs

/-- Sort rows ascending by `created_at`, modelling `ORDER BY created_at`. -/
def orderByCreated : List ChatRow → List ChatRow
  | [] => []
  | x :: xs => insertByCreated x (orderByCreated xs)

/-- Embedding of `get_chat_history` (src/3_long_term_mem.py lines 50-52):
SELECT role, message WHERE user_id = u ORDER BY created_at. -/
def get_chat_history (db : List ChatRow) (u : String) :
    List (String × String) :=
  (orderByCreated (db.filter (fun row => row.user_id == u))).map
    (fun row => (row.role, row.message))

/-- The database operations the script issues against ChatMessages: the
table creation (line 20), the thread-lookup SELECT (line 34), the
store_message INSERT (line 45), and the history SELECT (line 51). -/
inductive DbOp where
  | createTable
  | getOrCreateThreadQuery (user : String)
  | storeMessageOp (user thread role msg : String)
  | getChatHistoryQuery (user : String)

/-- The SQL text of each operation, as written in the script (the CREATE
statement's layout whitespace collapsed). -/
def sqlOf : DbOp → String
  | DbOp.createTable =>
    "CREATE TABLE IF NOT EXISTS ChatMessages (id SERIAL PRIMARY KEY, user_id VARCHAR(255), thread_id VARCHAR(255), role VARCHAR(50), message TEXT, created_at TIMESTAMP DEFAULT CURRENT_TIMESTAMP)"
  | DbOp.getOrCreateThreadQuery _ =>
    "SELECT thread_id FROM ChatMessages WHERE user_id = %s LIMIT 1"
  | DbOp.storeMessageOp _ _ _ _ =>
    "INSERT INTO ChatMessages (user_id, thread_id, role, message) VALUES (%s, %s, %s, %s)"
  | DbOp.getChatHistoryQuery _ =>
    "SELECT role, message FROM ChatMessages WHERE user_id = %s ORDER BY created_at"

/-- The statement kinds the append-only claim allows, plus a catch-all. -/
inductive SqlKind where
  | createTableIfNotExists
  | insertKind
  | selectKind
  | otherKind
deriving DecidableEq, Repr

/-- Classify a SQL statement by its leading keyword (after the layout
whitespace a triple-quoted Python string starts with). -/
def classifySQL (s : String) : SqlKind :=
  if ("CREATE TABLE IF NOT EXISTS".data).isPrefixOf (dropLeadingWs s.data) then
    SqlKind.createTableIfNotExists
  else if ("INSERT".data).isPrefixOf (dropLeadingWs s.data) then
    SqlKind.insertKind
  else if ("SELECT".data).isPrefixOf (dropLeadingWs s.data) then
    SqlKind.selectKind
  else SqlKind.otherKind

/-- Effect of each operation on the table: only the INSERT changes it, by
appending; CREATE TABLE IF NOT EXISTS on an existing table and the SELECTs
leave the rows unchanged. -/
def applyOp (db : List ChatRow) : DbOp → List ChatRow
  | DbOp.storeMessageOp u t r m => store_message db u t r m
  | _ => db

/-- Run a sequence of operations against the table. -/
def applyOps (db : List ChatRow) (ops : List DbOp) : List ChatRow :=
  ops.foldl applyOp db

/-- A store_message call's arguments: (user_id, thread_id, role, message). -/
abbrev StoreQuad := String × String × String × String

/-- Run a sequence of store_message calls against the empty table. -/
def runStores (ops : List StoreQuad) : List ChatRow :=
  ops.foldl (fun db q => store_message db q.1 q.2.1 q.2.2.1 q.2.2.2) []

/-- The rows produced by a sequence of store_message calls when the first
row receives timestamp `n`. -/
def rowsFrom (n : Nat) : List StoreQuad → List ChatRow
  | [] => []
  | q :: qs => ⟨q.1, q.2.1, q.2.2.1, q.2.2.2, n⟩ :: rowsFrom (n + 1) qs

end LongTerm

-- ===========================================================================
-- Short-term memory: the message_history buffer (src/3_short_term_mem.py)
-- ===========================================================================

namespace ShortTerm

/-- The summary text built at src/3_short_term_mem.py line 62:
`"Summarize the following conversation: " + " | ".join(message_history[-4:])`. -/
def summaryOf (history : List String) : String :=
  "Summarize the following conversation: "
    ++ String.intercalate " | " (history.drop (history.length - 4))

/-- The summarization step (src/3_short_term_mem.py lines 61-72): when the
history holds 5 or more messages, replace the last four by the summary
string (`message_history[-4:] = [summary_content]`). -/
def summarizeIfFull (h1 : List String) : List String :=
  if 5 ≤ h1.length then h1.take (h1.length - 4) ++ [summaryOf h1] else h1

/-- The trimming step (src/3_short_term_mem.py lines 75-76): when the
history still holds more than 5 messages, pop the oldest. -/
def popIfOver5 (h2 : List String) : List String :=
  if 5 < h2.length then h2.drop 1 else h2

/-- Embedding of `manage_messages` (src/3_short_term_mem.py lines 54-85),
restricted to its effect on the `message_history` list: append the input,
then summarize when full, then pop when still over 5. -/
def manage_messages (history : List String) (user_input : String) :
    List String :=
  popIfOver5 (summarizeIfFull (history ++ [user_input]))

end ShortTerm

-- ===========================================================================
-- Theorems
-- ===========================================================================

-- ---- C3: fail-fast on a missing connection string -------------------------

/-- C3 counterexample: with an empty environment, so that
PROJECT_CONNECTION_STRING is absent, the 3_long_term_mem.py script does not
terminate with an error; it reaches client construction, passing the absent
value straight through.  This refutes the claim that every script fails
fast before constructing a client. -/
theorem c3_counterexample :
    Scripts.getenv [] "PROJECT_CONNECTION_STRING" = none
    ∧ Scripts.startOf Scripts.Script.longTerm []
        = Scripts.StartOutcome.clientConstructed none := by
  exact ⟨rfl, rfl⟩

/-- C3 (amended): every script other than 3_long_term_mem.py terminates with
an error (raised ValueError or exit code 1) before any client is
constructed whenever PROJECT_CONNECTION_STRING is absent or empty;
3_long_term_mem.py performs no such check and constructs its client
unconditionally. -/
theorem c3_fail_fast_amended (s : Scripts.Script) (env : Scripts.Env)
    (hs : s ≠ Scripts.Script.longTerm)
    (h : Scripts.truthyEnvVal (Scripts.getenv env "PROJECT_CONNECTION_STRING")
        = false) :
    Scripts.startOf s env = Scripts.StartOutcome.errorExit := by
  cases s <;> simp [Scripts.startOf, h] at hs ⊢

/-- C3 witness: the setup script with an empty environment errors out. -/
theorem c3_witness :
    Scripts.startOf Scripts.Script.setup [] = Scripts.StartOutcome.errorExit :=
  c3_fail_fast_amended Scripts.Script.setup [] (by decide) (by decide)

-- ---- C4: the ChatMessages layer is append-only ----------------------------

/-- Each single operation only ever appends to the table. -/
theorem longterm_applyOp_append (db : List LongTerm.ChatRow)
    (op : LongTerm.DbOp) :
    ∃ tail, LongTerm.applyOp db op = db ++ tail := by
  cases op with
  | storeMessageOp u t r m => exact ⟨[⟨u, t, r, m, db.length⟩], rfl⟩
  | createTable => exact ⟨[], by simp [LongTerm.applyOp]⟩
  | getOrCreateThreadQuery u => exact ⟨[], by simp [LongTerm.applyOp]⟩
  | getChatHistoryQuery u => exact ⟨[], by simp [LongTerm.applyOp]⟩

/-- A sequence of operations only ever appends to the table. -/
theorem longterm_applyOps_append (ops : List LongTerm.DbOp) :
    ∀ db, ∃ rest, LongTerm.applyOps db ops = db ++ rest := by
  induction ops with
  | nil => exact fun db => ⟨[], by simp [LongTerm.applyOps]⟩
  | cons op ops ih =>
    intro db
    obtain ⟨tail, htail⟩ := longterm_applyOp_append db op
    obtain ⟨rest, hrest⟩ := ih (LongTerm.applyOp db op)
    refine ⟨tail ++ rest, ?_⟩
    have hstep : LongTerm.applyOps db (op :: ops)
        = LongTerm.applyOps (LongTerm.applyOp db op) ops := rfl
    rw [hstep, hrest, htail, List.append_assoc]

/-- C4: the chat-message persistence layer is append-only.  Every SQL
statement the long-term-memory script issues against ChatMessages is a
CREATE TABLE IF NOT EXISTS, an INSERT, or a SELECT, and running any
sequence of the script's operations leaves every previously stored row in
place unchanged (the table only grows by appending). -/
theorem c4_append_only :
    (∀ op : LongTerm.DbOp,
      LongTerm.classifySQL (LongTerm.sqlOf op)
        ∈ [LongTerm.SqlKind.createTableIfNotExists, LongTerm.SqlKind.insertKind,
           LongTerm.SqlKind.selectKind])
    ∧ (∀ (db : List LongTerm.ChatRow) (ops : List LongTerm.DbOp),
      ∃ rest, LongTerm.applyOps db ops = db ++ rest) := by
  constructor
  · intro op
    cases op <;> simp only [LongTerm.sqlOf] <;> decide
  · intro db ops
    exact longterm_applyOps_append ops db

-- ---- C8: the short-term history buffer is bounded -------------------------

/-- When the appended history reaches exactly five entries, summarization
keeps the first entry and the summary. -/
theorem shortterm_summarize_len5 (h1 : List String) (hl : h1.length = 5) :
    ShortTerm.summarizeIfFull h1 = h1.take 1 ++ [ShortTerm.summaryOf h1] := by
  unfold ShortTerm.summarizeIfFull
  rw [hl]
  norm_num

/-- On a four-entry history, manage_messages replaces the last four of the
five appended entries by the summary, leaving two entries. -/
theorem shortterm_manage_len4 (h : List String) (i : String)
    (h4 : h.length = 4) :
    ShortTerm.manage_messages h i
        = h.take 1 ++ [ShortTerm.summaryOf (h ++ [i])]
    ∧ (ShortTerm.manage_messages h i).length = 2 := by
  have hl : (h ++ [i]).length = 5 := by simp [h4]
  have hs := shortterm_summarize_len5 (h ++ [i]) hl
  have hlen2 : (ShortTerm.summarizeIfFull (h ++ [i])).length = 2 := by
    rw [hs]
    simp [List.length_take, hl]
  have hm : ShortTerm.manage_messages h i
      = ShortTerm.summarizeIfFull (h ++ [i]) := by
    unfold ShortTerm.manage_messages ShortTerm.popIfOver5
    rw [hlen2]
    norm_num
  refine ⟨?_, by rw [hm]; exact hlen2⟩
  rw [hm, hs]
  have htake : (h ++ [i]).take 1 = h.take 1 := by
    rw [List.take_append_eq_append_take]
    simp [h4]
  rw [htake]

/-- One manage_messages call keeps a history of at most four entries at most
four entries long. -/
theorem shortterm_manage_len_le (h : List String) (i : String)
    (hlen : h.length ≤ 4) : (ShortTerm.manage_messages h i).length ≤ 4 := by
  by_cases h4 : h.length = 4
  · have := (shortterm_manage_len4 h i h4).2
    omega
  · have hlt : (h ++ [i]).length ≤ 4 := by
      simp only [List.length_append, List.length_singleton]
      omega
    have h5 : ¬ 5 ≤ (h ++ [i]).length := by omega
    unfold ShortTerm.manage_messages ShortTerm.summarizeIfFull
      ShortTerm.popIfOver5
    rw [if_neg h5, if_neg (by omega : ¬ 5 < (h ++ [i]).length)]
    exact hlt

/-- C8: starting from the empty message_history, after every call to
manage_messages the history holds at most 5 entries; and on the call whose
append makes the length reach 5 (a four-entry history), the last four
entries are replaced by the single summary string, leaving exactly 2
entries. -/
theorem c8_history_bounded :
    (∀ inputs : List String,
      (inputs.foldl ShortTerm.manage_messages []).length ≤ 5)
    ∧ (∀ (h : List String) (i : String), h.length = 4 →
      ShortTerm.manage_messages h i
          = h.take 1 ++ [ShortTerm.summaryOf (h ++ [i])]
      ∧ (ShortTerm.manage_messages h i).length = 2) := by
  constructor
  · intro inputs
    have key : ∀ (l acc : List String), acc.length ≤ 4 →
        (l.foldl ShortTerm.manage_messages acc).length ≤ 4 := by
      intro l
      induction l with
      | nil => intro acc hacc; simpa using hacc
      | cons x xs ih =>
        intro acc hacc
        exact ih _ (shortterm_manage_len_le acc x hacc)
    have := key inputs [] (by simp)
    omega
  · exact shortterm_manage_len4

/-- C8 witness: the fifth message summarizes the last four, leaving two
entries. -/
theorem c8_witness :
    ShortTerm.manage_messages ["a", "b", "c", "d"] "e"
        = (["a", "b", "c", "d"] : List String).take 1
          ++ [ShortTerm.summaryOf (["a", "b", "c", "d"] ++ ["e"])]
    ∧ (ShortTerm.manage_messages ["a", "b", "c", "d"] "e").length = 2 :=
  c8_history_bounded.2 ["a", "b", "c", "d"] "e" (by decide)

-- ---- C10: wrapper precedence of city over coordinates ---------------------

/-- C10: in fetch_weather_wrapper and fetch_air_quality_wrapper a supplied
city takes strict precedence: with city present the underlying function is
invoked with only the city; with city absent it is invoked with lat and lon
exactly when both are present; otherwise the "Missing required parameters"
error object is returned without invoking the underlying function (the
result does not depend on it). -/
theorem c10_wrapper_city_precedence
    (f g : Option String → Option ℚ → Option ℚ → JObj) (lat lon : Option ℚ) :
    (∀ c, FuncSeq.fetch_weather_wrapper f (some c) lat lon = f (some c) none none
      ∧ FuncSeq.fetch_air_quality_wrapper f (some c) lat lon
          = f (some c) none none)
    ∧ (∀ la lo, lat = some la → lon = some lo →
      FuncSeq.fetch_weather_wrapper f none lat lon = f none (some la) (some lo)
      ∧ FuncSeq.fetch_air_quality_wrapper f none lat lon
          = f none (some la) (some lo))
    ∧ ((lat = none ∨ lon = none) →
      FuncSeq.fetch_weather_wrapper f none lat lon
          = [("error", JVal.str "Missing required parameters")]
      ∧ FuncSeq.fetch_weather_wrapper f none lat lon
          = FuncSeq.fetch_weather_wrapper g none lat lon
      ∧ FuncSeq.fetch_air_quality_wrapper f none lat lon
          = [("error", JVal.str "Missing required parameters")]
      ∧ FuncSeq.fetch_air_quality_wrapper f none lat lon
          = FuncSeq.fetch_air_quality_wrapper g none lat lon) := by
  refine ⟨fun c => ⟨rfl, rfl⟩, fun la lo hla hlo => ?_, fun h => ?_⟩
  · subst hla; subst hlo; exact ⟨rfl, rfl⟩
  · rcases h with h | h
    · subst h; cases lon <;> exact ⟨rfl, rfl, rfl, rfl⟩
    · subst h; cases lat <;> exact ⟨rfl, rfl, rfl, rfl⟩

/-- C10 witness: with city absent and lat absent, the wrapper returns the
error object without consulting the underlying function. -/
theorem c10_witness :
    FuncSeq.fetch_weather_wrapper FuncSeq.constEmptyTool none none (some 1)
      = [("error", JVal.str "Missing required parameters")] :=
  ((c10_wrapper_city_precedence FuncSeq.constEmptyTool FuncSeq.constEmptyTool
      none (some 1)).2.2 (Or.inl rfl)).1

-- ---- C7: get_chat_history returns exactly the user's stored rows ----------

/-- Running store_message calls appends rows timestamped consecutively from
the current table length. -/
theorem longterm_runStores_eq (ops : List LongTerm.StoreQuad) :
    ∀ db : List LongTerm.ChatRow,
      ops.foldl
        (fun db q => LongTerm.store_message db q.1 q.2.1 q.2.2.1 q.2.2.2) db
      = db ++ LongTerm.rowsFrom db.length ops := by
  induction ops with
  | nil => intro db; simp [LongTerm.rowsFrom]
  | cons q qs ih =>
    intro db
    rw [List.foldl_cons, ih]
    simp [LongTerm.store_message, LongTerm.rowsFrom, List.append_assoc]

/-- Every row produced from timestamp `n` on has timestamp at least `n`. -/
theorem longterm_rowsFrom_le (ops : List LongTerm.StoreQuad) :
    ∀ (n : Nat) (row : LongTerm.ChatRow),
      row ∈ LongTerm.rowsFrom n ops → n ≤ row.created_at := by
  induction ops with
  | nil => intro n row h; simp [LongTerm.rowsFrom] at h
  | cons q qs ih =>
    intro n row h
    simp only [LongTerm.rowsFrom, List.mem_cons] at h
    rcases h with h | h
    · subst h; exact Nat.le_refl n
    · have := ih (n + 1) row h
      omega

/-- The produced rows have strictly increasing timestamps. -/
theorem longterm_rowsFrom_pairwise (ops : List LongTerm.StoreQuad) :
    ∀ n : Nat, (LongTerm.rowsFrom n ops).Pairwise
      (fun a b => a.created_at < b.created_at) := by
  induction ops with
  | nil => intro n; simp [LongTerm.rowsFrom]
  | cons q qs ih =>
    intro n
    simp only [LongTerm.rowsFrom]
    refine List.Pairwise.cons ?_ (ih (n + 1))
    intro b hb
    have := longterm_rowsFrom_le qs (n + 1) b hb
    show n < b.created_at
    omega

/-- Sorting by created_at is the identity on a strictly increasing list. -/
theorem longterm_sort_sorted (l : List LongTerm.ChatRow)
    (h : l.Pairwise (fun a b => a.created_at < b.created_at)) :
    LongTerm.orderByCreated l = l := by
  induction l with
  | nil => rfl
  | cons x xs ih =>
    rw [List.pairwise_cons] at h
    obtain ⟨hx, hxs⟩ := h
    show LongTerm.insertByCreated x (LongTerm.orderByCreated xs) = x :: xs
    rw [ih hxs]
    cases xs with
    | nil => rfl
    | cons y ys =>
      show LongTerm.insertByCreated x (y :: ys) = x :: y :: ys
      unfold LongTerm.insertByCreated
      rw [if_pos (Nat.le_of_lt (hx y (List.mem_cons_self y ys)))]

/-- Filtering the produced rows by user and projecting matches filtering the
store calls by user and projecting. -/
theorem longterm_rowsFrom_filter_map (u : String)
    (ops : List LongTerm.StoreQuad) :
    ∀ n : Nat,
      ((LongTerm.rowsFrom n ops).filter (fun row => row.user_id == u)).map
          (fun row => (row.role, row.message))
        = (ops.filter (fun q => q.1 == u)).map
            (fun q => (q.2.2.1, q.2.2.2)) := by
  induction ops with
  | nil => intro n; rfl
  | cons q qs ih =>
    intro n
    by_cases hq : (q.1 == u) = true
    · simp only [LongTerm.rowsFrom, List.filter_cons, hq, if_pos]
      simp only [List.map_cons, ih (n + 1)]
    · simp only [LongTerm.rowsFrom, List.filter_cons]
      rw [if_neg (by simpa using hq), if_neg (by simpa using hq)]
      exact ih (n + 1)

/-- C7: get_chat_history(user_id) returns exactly the (role, message) pairs
previously stored via store_message for that user_id, none from other
users, in ascending created_at order, which is insertion order. -/
theorem c7_history_exact (ops : List LongTerm.StoreQuad) (u : String) :
    LongTerm.get_chat_history (LongTerm.runStores ops) u
      = (ops.filter (fun q => q.1 == u)).map (fun q => (q.2.2.1, q.2.2.2)) := by
  have h1 : LongTerm.runStores ops = LongTerm.rowsFrom 0 ops := by
    have h := longterm_runStores_eq ops []
    simpa [LongTerm.runStores] using h
  unfold LongTerm.get_chat_history
  rw [h1]
  have hpwf : ((LongTerm.rowsFrom 0 ops).filter
      (fun row => row.user_id == u)).Pairwise
        (fun a b => a.created_at < b.created_at) :=
    List.Pairwise.sublist (List.filter_sublist _)
      (longterm_rowsFrom_pairwise ops 0)
  rw [longterm_sort_sorted _ hpwf]
  exact longterm_rowsFrom_filter_map u ops 0

-- ---- C1/C2: the trace_function_name decorator -----------------------------

/-- When the args string has a comma, a digit, exactly two comma-separated
parts, and both stripped parts parse as floats, dispatch yields those
coordinates. -/
theorem trace_dispatch_coords (pf : String → Option ℚ) (s : String)
    (la lo : ℚ)
    (h1 : s.data.contains ',' = true) (h2 : s.data.any Char.isDigit = true)
    (h3 : (pySplitOnComma s).length = 2)
    (h4 : pf (pyStrip ((pySplitOnComma s).getD 0 "")) = some la)
    (h5 : pf (pyStrip ((pySplitOnComma s).getD 1 "")) = some lo) :
    Trace.dispatchArgs pf s = Trace.DispatchResult.coords la lo := by
  have hcond : (s.data.contains ',' && s.data.any Char.isDigit) = true := by
    rw [h1, h2]
    rfl
  unfold Trace.dispatchArgs
  rw [hcond, if_pos rfl, if_pos h3, h4, h5]

/-- In every other case dispatch treats the whole string as a city name. -/
theorem trace_dispatch_city (pf : String → Option ℚ) (s : String)
    (h : ¬(s.data.contains ',' = true ∧ s.data.any Char.isDigit = true ∧
        (pySplitOnComma s).length = 2 ∧
        (pf (pyStrip ((pySplitOnComma s).getD 0 ""))).isSome = true ∧
        (pf (pyStrip ((pySplitOnComma s).getD 1 ""))).isSome = true)) :
    Trace.dispatchArgs pf s = Trace.DispatchResult.cityName s := by
  unfold Trace.dispatchArgs
  by_cases h1 : s.data.contains ',' = true
  · by_cases h2 : s.data.any Char.isDigit = true
    · have hcond : (s.data.contains ',' && s.data.any Char.isDigit) = true := by
        rw [h1, h2]
        rfl
      rw [hcond, if_pos rfl]
      by_cases h3 : (pySplitOnComma s).length = 2
      · rw [if_pos h3]
        cases h4 : pf (pyStrip ((pySplitOnComma s).getD 0 "")) with
        | none => rfl
        | some la =>
          cases h5 : pf (pyStrip ((pySplitOnComma s).getD 1 "")) with
          | none => rfl
          | some lo =>
            exact absurd ⟨h1, h2, h3, by rw [h4]; rfl, by rw [h5]; rfl⟩ h
      · rw [if_neg h3]
    · simp only [Bool.not_eq_true] at h2
      have hcond : (s.data.contains ',' && s.data.any Char.isDigit) = false := by
        rw [h1, h2]
        rfl
      rw [hcond, if_neg (by simp)]
  · simp only [Bool.not_eq_true] at h1
    have hcond : (s.data.contains ',' && s.data.any Char.isDigit) = false := by
      rw [h1]
      exact Bool.false_and _
    rw [hcond, if_neg (by simp)]

/-- Under an 'args' string kwarg and a traced function name, the wrapper
call is rebuilt from the dispatch of the args string. -/
theorem trace_wrapper_args {R : Type} (funcName : String)
    (params : List String) (func : List Trace.PyVal → Trace.Kwargs → R)
    (pf : String → Option ℚ) (pos : List Trace.PyVal)
    (kwargs : Trace.Kwargs) (s : String)
    (hname : funcName ∈ Trace.tracedFunctionNames)
    (hargs : kwargs.lookup "args" = some (Trace.PyVal.vstr s)) :
    Trace.trace_function_name funcName params func pf pos kwargs
      = match Trace.dispatchArgs pf s with
        | Trace.DispatchResult.coords la lo =>
            func [] [("lat", Trace.PyVal.vnum la), ("lon", Trace.PyVal.vnum lo)]
        | Trace.DispatchResult.cityName c =>
            func [] [("city", Trace.PyVal.vstr c)] := by
  simp only [Trace.trace_function_name, hargs, if_pos hname]

/-- C1: for a call to a trace_function_name-wrapped fetch_weather,
fetch_air_quality or get_city_coords whose kwargs bind 'args' to a string:
if the string contains a comma and at least one digit and splits on ','
into exactly two parts both parseable as floats, the wrapped function is
invoked with exactly the kwargs lat/lon bound to the parsed parts; in
every other case it is invoked with exactly the kwargs city bound to the
whole original string. -/
theorem c1_args_normalization {R : Type} (funcName : String)
    (params : List String) (func : List Trace.PyVal → Trace.Kwargs → R)
    (pf : String → Option ℚ) (pos : List Trace.PyVal)
    (kwargs : Trace.Kwargs) (s : String)
    (hname : funcName ∈ Trace.tracedFunctionNames)
    (hargs : kwargs.lookup "args" = some (Trace.PyVal.vstr s)) :
    (∀ la lo, s.data.contains ',' = true → s.data.any Char.isDigit = true →
      (pySplitOnComma s).length = 2 →
      pf (pyStrip ((pySplitOnComma s).getD 0 "")) = some la →
      pf (pyStrip ((pySplitOnComma s).getD 1 "")) = some lo →
      Trace.trace_function_name funcName params func pf pos kwargs
        = func [] [("lat", Trace.PyVal.vnum la), ("lon", Trace.PyVal.vnum lo)])
    ∧ (¬(s.data.contains ',' = true ∧ s.data.any Char.isDigit = true ∧
          (pySplitOnComma s).length = 2 ∧
          (pf (pyStrip ((pySplitOnComma s).getD 0 ""))).isSome = true ∧
          (pf (pyStrip ((pySplitOnComma s).getD 1 ""))).isSome = true) →
      Trace.trace_function_name funcName params func pf pos kwargs
        = func [] [("city", Trace.PyVal.vstr s)]) := by
  have hw := trace_wrapper_args funcName params func pf pos kwargs s hname hargs
  constructor
  · intro la lo h1 h2 h3 h4 h5
    rw [hw, trace_dispatch_coords pf s la lo h1 h2 h3 h4 h5]
  · intro h
    rw [hw, trace_dispatch_city pf s h]

/-- C1 witness: the args string "1,1" is parsed into lat/lon kwargs. -/
theorem c1_witness :
    Trace.trace_function_name "fetch_weather" [] Trace.kwargsId Trace.pfDemo
        [] [("args", Trace.PyVal.vstr "1,1")]
      = [("lat", Trace.PyVal.vnum 1), ("lon", Trace.PyVal.vnum 1)] :=
  (c1_args_normalization "fetch_weather" [] Trace.kwargsId Trace.pfDemo []
      [("args", Trace.PyVal.vstr "1,1")] "1,1" (by decide) (by decide)).1 1 1
    (by decide) (by decide) (by decide) (by decide) (by decide)

/-- C2: on a call without the special 'args' kwarg and with every keyword a
parameter of the wrapped function, the decorated function returns exactly
what the undecorated function returns on the same arguments. -/
theorem c2_decorator_transparent {R : Type} (funcName : String)
    (params : List String) (func : List Trace.PyVal → Trace.Kwargs → R)
    (pf : String → Option ℚ) (pos : List Trace.PyVal) (kwargs : Trace.Kwargs)
    (hno : kwargs.lookup "args" = none)
    (hvalid : ∀ kv ∈ kwargs, kv.1 ∈ params) :
    Trace.trace_function_name funcName params func pf pos kwargs
      = func pos kwargs := by
  have hfilter : kwargs.filter (fun kv => decide (kv.1 ∈ params)) = kwargs :=
    List.filter_eq_self.mpr (fun kv hkv => by simpa using hvalid kv hkv)
  simp only [Trace.trace_function_name, hno, hfilter]

/-- C2 witness: a plain city call passes through the decorator unchanged. -/
theorem c2_witness :
    Trace.trace_function_name "fetch_weather" ["city", "lat", "lon"]
        Trace.kwargsId Trace.pfDemo [] [("city", Trace.PyVal.vstr "London")]
      = Trace.kwargsId [] [("city", Trace.PyVal.vstr "London")] :=
  c2_decorator_transparent "fetch_weather" ["city", "lat", "lon"]
    Trace.kwargsId Trace.pfDemo [] [("city", Trace.PyVal.vstr "London")]
    (by decide) (by decide)

-- ---- C5/C6/C9: the tool functions ----------------------------------------

/-- A successful CITY_COORDS lookup pins the city to one of the three known
entries. -/
theorem funcseq_lookup_cases (c : String) (p : ℚ × ℚ)
    (h : FuncSeq.CITY_COORDS.lookup c = some p) :
    (c = "London" ∧ p = (51.5074, -0.1278))
    ∨ (c = "New York" ∧ p = (40.7128, -74.0060))
    ∨ (c = "Tokyo" ∧ p = (35.6895, 139.6917)) := by
  simp only [FuncSeq.CITY_COORDS, List.lookup_cons, List.lookup_nil] at h
  by_cases h1 : c = "London"
  · have hb : (c == "London") = true := beq_iff_eq.mpr h1
    simp only [hb, Option.some.injEq] at h
    exact Or.inl ⟨h1, h.symm⟩
  · have hb : (c == "London") = false := beq_eq_false_iff_ne.mpr h1
    simp only [hb] at h
    by_cases h2 : c = "New York"
    · have hb2 : (c == "New York") = true := beq_iff_eq.mpr h2
      simp only [hb2, Option.some.injEq] at h
      exact Or.inr (Or.inl ⟨h2, h.symm⟩)
    · have hb2 : (c == "New York") = false := beq_eq_false_iff_ne.mpr h2
      simp only [hb2] at h
      by_cases h3 : c = "Tokyo"
      · have hb3 : (c == "Tokyo") = true := beq_iff_eq.mpr h3
        simp only [hb3, Option.some.injEq] at h
        exact Or.inr (Or.inr ⟨h3, h.symm⟩)
      · have hb3 : (c == "Tokyo") = false := beq_eq_false_iff_ne.mpr h3
        simp only [hb3] at h
        exact absurd h (by simp)

/-- Known city names are nonempty and their table coordinates nonzero. -/
theorem funcseq_lookup_facts (c : String) (la lo : ℚ)
    (h : FuncSeq.CITY_COORDS.lookup c = some (la, lo)) :
    c ≠ "" ∧ la ≠ 0 ∧ lo ≠ 0 := by
  rcases funcseq_lookup_cases c (la, lo) h with ⟨hc, hp⟩ | ⟨hc, hp⟩ | ⟨hc, hp⟩ <;>
    (simp only [Prod.mk.injEq] at hp
     obtain ⟨h1, h2⟩ := hp
     subst hc
     subst h1
     subst h2
     refine ⟨by decide, by norm_num, by norm_num⟩)

/-- With a truthy city and a falsy coordinate pair, a known city resolves to
its table coordinates. -/
theorem funcseq_resolve_city (c : String) (la lo : ℚ) (lat0 lon0 : Option ℚ)
    (hc : c ≠ "")
    (hguard : (FuncSeq.truthyOptRat lat0 && FuncSeq.truthyOptRat lon0) = false)
    (hlook : FuncSeq.CITY_COORDS.lookup c = some (la, lo)) :
    FuncSeq.resolveCoords (some c) lat0 lon0
      = Except.ok (some la, some lo) := by
  have ht : FuncSeq.truthyOptStr (some c) = true := by
    simp [FuncSeq.truthyOptStr, hc]
  unfold FuncSeq.resolveCoords
  rw [ht, hguard]
  simp only [Bool.not_false, Bool.and_true, if_true, Option.getD_some, hlook]

/-- With truthy resolved coordinates, fetch_weather issues the HTTP request
at exactly those coordinates. -/
theorem funcseq_fetch_weather_city (c : String) (la lo : ℚ)
    (lat0 lon0 : Option ℚ) (http : ℚ → ℚ → FuncSeq.MeteoResult)
    (hc : c ≠ "")
    (hguard : (FuncSeq.truthyOptRat lat0 && FuncSeq.truthyOptRat lon0) = false)
    (hlook : FuncSeq.CITY_COORDS.lookup c = some (la, lo)) :
    (FuncSeq.fetch_weather (some c) lat0 lon0 http).2 = some (la, lo) := by
  obtain ⟨-, hla, hlo⟩ := funcseq_lookup_facts c la lo hlook
  have hres := funcseq_resolve_city c la lo lat0 lon0 hc hguard hlook
  have htr : (FuncSeq.truthyOptRat (some la) && FuncSeq.truthyOptRat (some lo))
      = true := by
    simp [FuncSeq.truthyOptRat, hla, hlo]
  unfold FuncSeq.fetch_weather
  rw [hres]
  simp only [htr, Bool.not_true, Bool.false_eq_true, if_false, Option.getD_some]
  cases http la lo <;> rfl

/-- With truthy resolved coordinates, fetch_air_quality reports exactly
those coordinates. -/
theorem funcseq_air_quality_city (c : String) (la lo : ℚ)
    (lat0 lon0 : Option ℚ)
    (hc : c ≠ "")
    (hguard : (FuncSeq.truthyOptRat lat0 && FuncSeq.truthyOptRat lon0) = false)
    (hlook : FuncSeq.CITY_COORDS.lookup c = some (la, lo)) :
    FuncSeq.fetch_air_quality (some c) lat0 lon0
      = [("air_quality_index", JVal.num 42),
         ("lat", JVal.num la), ("lon", JVal.num lo)] := by
  obtain ⟨-, hla, hlo⟩ := funcseq_lookup_facts c la lo hlook
  have hres := funcseq_resolve_city c la lo lat0 lon0 hc hguard hlook
  have htr : (FuncSeq.truthyOptRat (some la) && FuncSeq.truthyOptRat (some lo))
      = true := by
    simp [FuncSeq.truthyOptRat, hla, hlo]
  unfold FuncSeq.fetch_air_quality
  rw [hres]
  simp only [htr, Bool.not_true, Bool.false_eq_true, if_false, Option.getD_some]

/-- C6: for the keyword-argument fetch_weather, a city that is a key of
CITY_COORDS with lat and lon not both supplied makes the forwarded weather
request use exactly the table's coordinates for that city; a city that is
not a key, with no coordinates supplied, yields a JSON error and no HTTP
request. -/
theorem c6_city_normalization (city : String) (lat0 lon0 : Option ℚ)
    (http : ℚ → ℚ → FuncSeq.MeteoResult) :
    (∀ la lo, FuncSeq.CITY_COORDS.lookup city = some (la, lo) →
      ¬(lat0.isSome = true ∧ lon0.isSome = true) →
      (FuncSeq.fetch_weather (some city) lat0 lon0 http).2 = some (la, lo))
    ∧ (FuncSeq.CITY_COORDS.lookup city = none → lat0 = none → lon0 = none →
      hasError (FuncSeq.fetch_weather (some city) lat0 lon0 http).1 = true
      ∧ (FuncSeq.fetch_weather (some city) lat0 lon0 http).2 = none) := by
  constructor
  · intro la lo hlook hns
    obtain ⟨hc, -, -⟩ := funcseq_lookup_facts city la lo hlook
    have hguard : (FuncSeq.truthyOptRat lat0 && FuncSeq.truthyOptRat lon0)
        = false := by
      cases lat0 with
      | none => simp [FuncSeq.truthyOptRat]
      | some x =>
        cases lon0 with
        | none => simp [FuncSeq.truthyOptRat]
        | some y => exact absurd ⟨rfl, rfl⟩ hns
    exact funcseq_fetch_weather_city city la lo lat0 lon0 http hc hguard hlook
  · intro hlook hlat hlon
    subst hlat
    subst hlon
    by_cases hc : city = ""
    · subst hc
      exact ⟨rfl, rfl⟩
    · have ht : FuncSeq.truthyOptStr (some city) = true := by
        simp [FuncSeq.truthyOptStr, hc]
      have hres : FuncSeq.resolveCoords (some city) none none
          = Except.error
              [("error", JVal.str ("City " ++ city ++ " not supported"))] := by
        unfold FuncSeq.resolveCoords
        rw [ht]
        simp only [FuncSeq.truthyOptRat, Bool.and_self, Bool.not_false,
          Bool.and_true, if_true, Option.getD_some, hlook]
      constructor
      · simp [FuncSeq.fetch_weather, hres, hasError]
      · simp [FuncSeq.fetch_weather, hres]

/-- C6 witness: fetch_weather on London with no coordinates requests the
table's London coordinates. -/
theorem c6_witness :
    (FuncSeq.fetch_weather (some "London") none none FuncSeq.httpExnDemo).2
      = some (51.5074, -0.1278) :=
  (c6_city_normalization "London" none none FuncSeq.httpExnDemo).1
    51.5074 (-0.1278) (by rfl) (by simp)

/-- C9: with city absent (None or empty) and lat or lon equal to 0.0, both
keyword tool functions return the "Missing coordinates" JSON error and
issue no HTTP request, because the guard tests truthiness; and whenever a
known city is given and either coordinate is falsy, both coordinates are
re-derived from the city's table entry. -/
theorem c9_zero_is_missing (city : Option String) (lat0 lon0 : Option ℚ)
    (http : ℚ → ℚ → FuncSeq.MeteoResult) :
    ((city = none ∨ city = some "") → (lat0 = some 0 ∨ lon0 = some 0) →
      FuncSeq.fetch_weather city lat0 lon0 http
          = ([("error", JVal.str "Missing coordinates")], none)
      ∧ FuncSeq.fetch_air_quality city lat0 lon0
          = [("error", JVal.str "Missing coordinates")])
    ∧ (∀ c la lo, city = some c → c ≠ "" →
      (FuncSeq.truthyOptRat lat0 = false ∨ FuncSeq.truthyOptRat lon0 = false) →
      FuncSeq.CITY_COORDS.lookup c = some (la, lo) →
      (FuncSeq.fetch_weather city lat0 lon0 http).2 = some (la, lo)
      ∧ FuncSeq.fetch_air_quality city lat0 lon0
          = [("air_quality_index", JVal.num 42),
             ("lat", JVal.num la), ("lon", JVal.num lo)]) := by
  constructor
  · intro hcity hzero
    have hct : FuncSeq.truthyOptStr city = false := by
      rcases hcity with h | h <;> subst h <;> rfl
    have hzt : (FuncSeq.truthyOptRat lat0 && FuncSeq.truthyOptRat lon0)
        = false := by
      rcases hzero with h | h <;> subst h <;>
        simp [FuncSeq.truthyOptRat]
    have hres : FuncSeq.resolveCoords city lat0 lon0
        = Except.ok (lat0, lon0) := by
      unfold FuncSeq.resolveCoords
      rw [hct]
      simp
    constructor
    · unfold FuncSeq.fetch_weather
      rw [hres]
      simp [hzt]
    · unfold FuncSeq.fetch_air_quality
      rw [hres]
      simp [hzt]
  · intro c la lo hcity hc hf hlook
    subst hcity
    have hguard : (FuncSeq.truthyOptRat lat0 && FuncSeq.truthyOptRat lon0)
        = false := by
      rcases hf with h | h <;> simp [h]
    exact ⟨funcseq_fetch_weather_city c la lo lat0 lon0 http hc hguard hlook,
      funcseq_air_quality_city c la lo lat0 lon0 hc hguard hlook⟩

/-- C9 witness: lat supplied as 0.0 with city and lon absent yields the
Missing coordinates error from both functions, with no request issued. -/
theorem c9_witness :
    FuncSeq.fetch_weather none (some 0) none FuncSeq.httpExnDemo
        = ([("error", JVal.str "Missing coordinates")], none)
    ∧ FuncSeq.fetch_air_quality none (some 0) none
        = [("error", JVal.str "Missing coordinates")] :=
  (c9_zero_is_missing none (some 0) none FuncSeq.httpExnDemo).1
    (Or.inl rfl) (Or.inl rfl)

